import Mathlib

/-!
Shallow embedding of the `mongoose-unit-of-work` library
(`src/unit-of-work.ts`, `src/resilient-unit-of-work.ts`, `src/constants.ts`).

Modelling conventions:

* JavaScript errors are `JsError` records holding `name` and an optional
  `message` (in JS, `message` may be `undefined`, hence `Option`).
* The manager state (`UoWState`) holds the private `session : Option Session`
  slot together with a fresh-id counter used to give each session acquired by
  `connection.startSession` a distinct identity.
* The external store (mongoose `ClientSession`) is modelled through an
  `Oracle` fixing the outcome of the failable store round-trips of one
  attempt: the unit-of-work call, `commitTransaction`, and
  `abortTransaction`.  `startSession`, `startTransaction` and `endSession`
  are modelled infallible (claims under verification never exercise their
  failures).  Store model: a failed `commitTransaction` leaves the session's
  transaction active (so `inTransaction()` is still true when the wrapper's
  auto-abort runs), and an attempted `abortTransaction` ends the transaction
  state whether or not the store reports an error.
* Every operation returns a `StepResult`: an `Except` outcome (a thrown
  JS error becomes `.error`), the successor state, and the list of store
  interactions (`Event`s) it performed, in order.  Logging is not modelled:
  the `ILogger` sink never influences control flow.
* The unit-of-work result type is fixed to `Nat`; the claims never depend on
  the carried value's type.
* `calculateBackoffDelay` is modelled over `Nat` (the configuration values
  are millisecond counts); for the integer configurations in scope the JS
  float computation is exact.
-/

namespace MUow

/-- JavaScript error value: a `name` and an optional `message`. -/
structure JsError where
  name : String
  message : Option String
deriving DecidableEq

/-- Model of JS `new Error(msg)`: name "Error", the given message. -/
def mkError (msg : String) : JsError := ⟨"Error", some msg⟩

/-- Error thrown by `begin()` when a session is already active. -/
def alreadyActiveError : JsError := mkError "A session is already active"

/-- Error thrown by `getSession()`/`execute()` without an active session. -/
def noActiveSessionError : JsError :=
  mkError "No active transaction. Call begin() first."

/-- Store interactions performed by the wrapper, tagged with the id of the
session they act on (`uowCall` records an invocation of the caller-supplied
transaction function with that session). -/
inductive Event where
  | startSession (id : Nat)
  | startTransaction (id : Nat)
  | uowCall (id : Nat)
  | commitTransaction (id : Nat)
  | abortTransaction (id : Nat)
  | endSession (id : Nat)
deriving DecidableEq

/-- A `ClientSession` handle: its identity and whether `inTransaction()`
currently returns true. -/
structure Session where
  id : Nat
  inTx : Bool
deriving DecidableEq

/-- State of one `UnitOfWork` manager instance: the private nullable
`session` field, plus the fresh-id counter for sessions the connection
hands out. -/
structure UoWState where
  session : Option Session
  nextId : Nat
deriving DecidableEq

/-- Outcomes the external store (and the caller-supplied unit of work)
produce during one attempt: the unit of work's result or thrown error,
whether `commitTransaction` throws (and with what error), and whether
`abortTransaction` throws. -/
structure Oracle where
  uow : Except JsError Nat
  commitFails : Option JsError
  abortFails : Option JsError

/-- Result of running one wrapper operation: the returned value or thrown
error, the manager state afterwards, and the ordered store interactions. -/
structure StepResult (α : Type) where
  res : Except JsError α
  state : UoWState
  trace : List Event

/-- Number of occurrences of an event in a trace. -/
def countEvent (e : Event) (tr : List Event) : Nat :=
  (tr.filter (fun x => x = e)).length

namespace UnitOfWork

/-- `begin()`: throws if a session is already active (leaving it untouched);
otherwise acquires a fresh session from the connection and starts a
transaction on it. -/
def begin (st : UoWState) : StepResult Unit :=
  match st.session with
  | some _ => ⟨.error alreadyActiveError, st, []⟩
  | none =>
      ⟨.ok (), ⟨some ⟨st.nextId, true⟩, st.nextId + 1⟩,
        [Event.startSession st.nextId, Event.startTransaction st.nextId]⟩

/-- `getSession()`: returns the active session, throwing if none. -/
def getSession (st : UoWState) : StepResult Session :=
  match st.session with
  | none => ⟨.error noActiveSessionError, st, []⟩
  | some s => ⟨.ok s, st, []⟩

/-- `execute(transactionFn)`: throws if no session is active; otherwise
invokes the unit of work with the active session and propagates its outcome
unchanged (the catch block only logs and rethrows). -/
def execute (st : UoWState) (o : Oracle) : StepResult Nat :=
  match st.session with
  | none => ⟨.error noActiveSessionError, st, []⟩
  | some s => ⟨o.uow, st, [Event.uowCall s.id]⟩

/-- `abort()`: no-op unless a session is active and in a transaction;
otherwise calls `abortTransaction`, swallowing (only logging) any error it
throws. -/
def abort (st : UoWState) (o : Oracle) : StepResult Unit :=
  match st.session with
  | none => ⟨.ok (), st, []⟩
  | some s =>
      if s.inTx then
        match o.abortFails with
        | none => ⟨.ok (), ⟨some ⟨s.id, false⟩, st.nextId⟩, [Event.abortTransaction s.id]⟩
        | some _ => ⟨.ok (), ⟨some ⟨s.id, false⟩, st.nextId⟩, [Event.abortTransaction s.id]⟩
      else ⟨.ok (), st, []⟩

/-- `commit()`: no-op unless a session is active and in a transaction;
otherwise calls `commitTransaction`; on failure runs `abort()` and rethrows
the commit error. -/
def commit (st : UoWState) (o : Oracle) : StepResult Unit :=
  match st.session with
  | none => ⟨.ok (), st, []⟩
  | some s =>
      if s.inTx then
        match o.commitFails with
        | none => ⟨.ok (), ⟨some ⟨s.id, false⟩, st.nextId⟩, [Event.commitTransaction s.id]⟩
        | some e =>
            let a := abort st o
            ⟨.error e, a.state, Event.commitTransaction s.id :: a.trace⟩
      else ⟨.ok (), st, []⟩

/-- `dispose()`: no-op if no session is active; otherwise ends the session
and clears the slot. -/
def dispose (st : UoWState) : StepResult Unit :=
  match st.session with
  | none => ⟨.ok (), st, []⟩
  | some s => ⟨.ok (), ⟨none, st.nextId⟩, [Event.endSession s.id]⟩

/-- The `try` block of `executeTransaction`: `begin()`, then
`execute(transactionFn)`, then `commit()`, short-circuiting on the first
thrown error. -/
def attemptBody (st : UoWState) (o : Oracle) : StepResult Nat :=
  let b := begin st
  match b.res with
  | .error e => ⟨.error e, b.state, b.trace⟩
  | .ok _ =>
      let ex := execute b.state o
      match ex.res with
      | .error e => ⟨.error e, ex.state, b.trace ++ ex.trace⟩
      | .ok v =>
          let c := commit ex.state o
          match c.res with
          | .error e => ⟨.error e, c.state, b.trace ++ ex.trace ++ c.trace⟩
          | .ok _ => ⟨.ok v, c.state, b.trace ++ ex.trace ++ c.trace⟩

/-- `executeTransaction(transactionFn)`: the try block above, with `abort()`
run on any thrown error before rethrowing it, and `dispose()` always run
last (the `finally` clause). -/
def executeTransaction (st : UoWState) (o : Oracle) : StepResult Nat :=
  let t := attemptBody st o
  match t.res with
  | .ok v =>
      let d := dispose t.state
      ⟨.ok v, d.state, t.trace ++ d.trace⟩
  | .error e =>
      let a := abort t.state o
      let d := dispose a.state
      ⟨.error e, d.state, t.trace ++ a.trace ++ d.trace⟩

end UnitOfWork

/-- Retry configuration (`RetryOptions` of `interfaces.ts`); the optional
`retryableErrors` list mirrors the `string[] | undefined` field. -/
structure RetryOptions where
  maxRetries : Nat
  initialDelayMs : Nat
  maxDelayMs : Nat
  backoffFactor : Nat
  retryableErrors : Option (List String)

/-- `DEFAULT_RETRY_OPTIONS` from `constants.ts`. -/
def DEFAULT_RETRY_OPTIONS : RetryOptions :=
  ⟨3, 100, 1000, 2,
    some ["TransientTransactionError", "UnknownTransactionCommitResult"]⟩

/-- JS `hay.includes(needle)`: `needle` occurs in `hay` as a contiguous
substring. -/
def strIncludes (hay needle : String) : Bool :=
  decide (needle.data <:+: hay.data)

namespace ResilientUnitOfWork

/-- `isRetryableError(error)`: false when `retryableErrors` is absent;
otherwise true iff some configured identifier equals the error's name or
occurs in its message (`error.message?.includes(errorType)` is falsy when
`message` is `undefined`). -/
def isRetryableError (retryableErrors : Option (List String)) (e : JsError) : Bool :=
  match retryableErrors with
  | none => false
  | some l =>
      l.any (fun errorType =>
        e.name == errorType ||
          (match e.message with
           | some m => strIncludes m errorType
           | none => false))

/-- `calculateBackoffDelay(retryCount)`:
`min(initialDelayMs * backoffFactor ^ retryCount, maxDelayMs)`. -/
def calculateBackoffDelay (opts : RetryOptions) (retryCount : Nat) : Nat :=
  min (opts.initialDelayMs * opts.backoffFactor ^ retryCount) opts.maxDelayMs

/-- Result of the retry loop: outcome, final manager state, concatenated
store interactions of all attempts, backoff delays slept between attempts,
and the number of attempts performed. -/
structure RStepResult where
  res : Except JsError Nat
  state : UoWState
  trace : List Event
  delays : List Nat
  attempts : Nat

/-- The retry loop from iteration `attempt` on, with
`remaining = maxRetries - attempt` iterations still allowed after this one.
Each iteration runs the wrapped manager's full `executeTransaction`; on error
it rethrows when `attempt === maxRetries` (`remaining = 0`) or the error is
not retryable, and otherwise sleeps the backoff delay and continues. -/
def retryFrom (opts : RetryOptions) (os : Nat → Oracle) (attempt : Nat) :
    Nat → UoWState → RStepResult
  | remaining, st =>
      let r := UnitOfWork.executeTransaction st (os attempt)
      match r.res with
      | .ok v => ⟨.ok v, r.state, r.trace, [], 1⟩
      | .error e =>
          match remaining with
          | 0 => ⟨.error e, r.state, r.trace, [], 1⟩
          | rem + 1 =>
              if isRetryableError opts.retryableErrors e then
                let rest := retryFrom opts os (attempt + 1) rem r.state
                ⟨rest.res, rest.state, r.trace ++ rest.trace,
                  calculateBackoffDelay opts attempt :: rest.delays,
                  rest.attempts + 1⟩
              else ⟨.error e, r.state, r.trace, [], 1⟩

/-- `ResilientUnitOfWork.executeTransaction(transactionFn)`: attempts
`0 .. maxRetries` inclusive of the wrapped lifecycle, with the retry/backoff
policy above; `os i` fixes the store outcomes of attempt `i`. -/
def executeTransaction (opts : RetryOptions) (os : Nat → Oracle)
    (st : UoWState) : RStepResult :=
  retryFrom opts os 0 opts.maxRetries st

end ResilientUnitOfWork

/-- Specification-side retryable predicate, following the spec's words: the
error's name exactly equals a configured identifier, or its message contains
one as a substring (an absent message contains nothing). -/
def retryableSpec (cfg : Option (List String)) (e : JsError) : Prop :=
  ∃ t ∈ cfg.getD [],
    e.name = t ∨ ∃ m, e.message = some m ∧ strIncludes m t = true

/-- Sample retryable store error used to instantiate universal theorems. -/
def tteErr : JsError := ⟨"TransientTransactionError", none⟩

/-- Sample non-retryable error used to instantiate universal theorems. -/
def fatalErr : JsError := ⟨"SomeFatalError", some "not transient"⟩

section Lemmas

open UnitOfWork

/-- Shape of one full lifecycle attempt from an idle manager when the unit
of work and the commit both succeed. -/
lemma attempt_ok (st : UoWState) (o : Oracle) (v : Nat)
    (hs : st.session = none) (hu : o.uow = .ok v) (hc : o.commitFails = none) :
    executeTransaction st o =
      ⟨.ok v, ⟨none, st.nextId + 1⟩,
        [Event.startSession st.nextId, Event.startTransaction st.nextId,
         Event.uowCall st.nextId, Event.commitTransaction st.nextId,
         Event.endSession st.nextId]⟩ := by
  obtain ⟨sess, n⟩ := st
  simp only at hs
  subst hs
  simp [executeTransaction, attemptBody, begin, execute, commit, abort,
    dispose, hu, hc]

/-- Shape of one full lifecycle attempt from an idle manager when the unit
of work throws. -/
lemma attempt_uow_fail (st : UoWState) (o : Oracle) (e : JsError)
    (hs : st.session = none) (hu : o.uow = .error e) :
    executeTransaction st o =
      ⟨.error e, ⟨none, st.nextId + 1⟩,
        [Event.startSession st.nextId, Event.startTransaction st.nextId,
         Event.uowCall st.nextId, Event.abortTransaction st.nextId,
         Event.endSession st.nextId]⟩ := by
  obtain ⟨sess, n⟩ := st
  simp only at hs
  subst hs
  cases habort : o.abortFails <;>
    simp [executeTransaction, attemptBody, begin, execute, commit, abort,
      dispose, hu, habort]

/-- Shape of one full lifecycle attempt from an idle manager when the unit
of work succeeds but the commit throws. -/
lemma attempt_commit_fail (st : UoWState) (o : Oracle) (v : Nat) (e : JsError)
    (hs : st.session = none) (hu : o.uow = .ok v) (hc : o.commitFails = some e) :
    executeTransaction st o =
      ⟨.error e, ⟨none, st.nextId + 1⟩,
        [Event.startSession st.nextId, Event.startTransaction st.nextId,
         Event.uowCall st.nextId, Event.commitTransaction st.nextId,
         Event.abortTransaction st.nextId, Event.endSession st.nextId]⟩ := by
  obtain ⟨sess, n⟩ := st
  simp only at hs
  subst hs
  cases habort : o.abortFails <;>
    simp [executeTransaction, attemptBody, begin, execute, commit, abort,
      dispose, hu, hc, habort]

end Lemmas

/-- C1: for every outcome of `UnitOfWork.executeTransaction` (unit of work
returns, unit of work throws, commit throws), the session begun for the
attempt (id `st.nextId`) has `endSession` invoked on it exactly once, and
the active-session slot is cleared, given no session is active at entry. -/
theorem executeTransaction_cleanup_guarantee (st : UoWState) (o : Oracle)
    (hs : st.session = none) :
    countEvent (Event.endSession st.nextId)
        (UnitOfWork.executeTransaction st o).trace = 1 ∧
    (UnitOfWork.executeTransaction st o).state.session = none := by
  rcases hu : o.uow with e | v
  · rw [attempt_uow_fail st o e hs hu]
    simp [countEvent]
  · rcases hc : o.commitFails with _ | e
    · rw [attempt_ok st o v hs hu hc]
      simp [countEvent]
    · rw [attempt_commit_fail st o v e hs hu hc]
      simp [countEvent]

/-- Witness for C1 at a concrete idle state and a succeeding attempt. -/
theorem executeTransaction_cleanup_guarantee_witness :
    countEvent (Event.endSession 0)
        (UnitOfWork.executeTransaction ⟨none, 0⟩ ⟨.ok 5, none, none⟩).trace = 1 ∧
    (UnitOfWork.executeTransaction ⟨none, 0⟩ ⟨.ok 5, none, none⟩).state.session = none :=
  executeTransaction_cleanup_guarantee ⟨none, 0⟩ ⟨.ok 5, none, none⟩ rfl

/-- C3: if a session is active with an active transaction and
`commitTransaction` fails, `UnitOfWork.commit` performs `abortTransaction`
exactly once before re-raising the commit error; and `commit` is a no-op
without store contact when no session is active or its transaction is not
active. -/
theorem commit_auto_abort_and_noop (st : UoWState) (o : Oracle) :
    (∀ s e, st.session = some s → s.inTx = true → o.commitFails = some e →
      UnitOfWork.commit st o =
        ⟨.error e, ⟨some ⟨s.id, false⟩, st.nextId⟩,
          [Event.commitTransaction s.id, Event.abortTransaction s.id]⟩) ∧
    (st.session = none → UnitOfWork.commit st o = ⟨.ok (), st, []⟩) ∧
    (∀ s, st.session = some s → s.inTx = false →
      UnitOfWork.commit st o = ⟨.ok (), st, []⟩) := by
  refine ⟨?_, ?_, ?_⟩
  · intro s e h htx hc
    cases habort : o.abortFails <;>
      simp [UnitOfWork.commit, UnitOfWork.abort, h, htx, hc, habort]
  · intro h
    simp [UnitOfWork.commit, h]
  · intro s h htx
    simp [UnitOfWork.commit, h, htx]

/-- Witness for C3 at a concrete in-transaction state with a failing
commit. -/
theorem commit_auto_abort_and_noop_witness :
    UnitOfWork.commit ⟨some ⟨0, true⟩, 1⟩ ⟨.ok 0, some fatalErr, none⟩ =
      ⟨.error fatalErr, ⟨some ⟨0, false⟩, 1⟩,
        [Event.commitTransaction 0, Event.abortTransaction 0]⟩ :=
  (commit_auto_abort_and_noop ⟨some ⟨0, true⟩, 1⟩ ⟨.ok 0, some fatalErr, none⟩).1
    ⟨0, true⟩ fatalErr rfl rfl rfl

/-- C5: the backoff delay for attempt index `n` is
`min(initialDelayMs * backoffFactor ^ n, maxDelayMs)`, with no jitter; with
the default options the successive delays are 100, 200, 400, 800, 1000,
1000. -/
theorem calculateBackoffDelay_formula (opts : RetryOptions) (n : Nat) :
    ResilientUnitOfWork.calculateBackoffDelay opts n =
      min (opts.initialDelayMs * opts.backoffFactor ^ n) opts.maxDelayMs ∧
    (List.range 6).map
        (ResilientUnitOfWork.calculateBackoffDelay DEFAULT_RETRY_OPTIONS) =
      [100, 200, 400, 800, 1000, 1000] :=
  ⟨rfl, by decide⟩

/-- C8: `begin()` while a session is already active fails with the
active-session error, acquires nothing from the store (empty trace) and
leaves the state, including the existing session, unchanged. -/
theorem begin_mutual_exclusion (st : UoWState) (s : Session)
    (h : st.session = some s) :
    UnitOfWork.begin st = ⟨.error alreadyActiveError, st, []⟩ := by
  simp [UnitOfWork.begin, h]

/-- Witness for C8 at a concrete active-session state. -/
theorem begin_mutual_exclusion_witness :
    UnitOfWork.begin ⟨some ⟨0, true⟩, 1⟩ =
      ⟨.error alreadyActiveError, ⟨some ⟨0, true⟩, 1⟩, []⟩ :=
  begin_mutual_exclusion ⟨some ⟨0, true⟩, 1⟩ ⟨0, true⟩ rfl

/-- C9: `dispose()` is idempotent: a second `dispose` after any `dispose`
returns successfully, changes nothing and contacts the store not at all;
and `dispose` from a state with no active session is likewise a no-op. -/
theorem dispose_idempotent (st : UoWState) :
    UnitOfWork.dispose (UnitOfWork.dispose st).state =
      ⟨.ok (), (UnitOfWork.dispose st).state, []⟩ ∧
    (st.session = none → UnitOfWork.dispose st = ⟨.ok (), st, []⟩) := by
  constructor
  · rcases h : st.session with _ | s <;> simp [UnitOfWork.dispose, h]
  · intro h
    simp [UnitOfWork.dispose, h]

/-- Witness for C9 at a concrete no-session state. -/
theorem dispose_idempotent_witness :
    UnitOfWork.dispose ⟨none, 7⟩ = ⟨.ok (), ⟨none, 7⟩, []⟩ :=
  (dispose_idempotent ⟨none, 7⟩).2 rfl

/-- C4: an error is classified retryable iff its name exactly equals a
configured identifier or its message contains one as a substring; with the
retryable set absent or empty nothing is retryable. -/
theorem isRetryableError_characterisation (cfg : Option (List String)) (e : JsError) :
    (ResilientUnitOfWork.isRetryableError cfg e = true ↔ retryableSpec cfg e) ∧
    ((cfg = none ∨ cfg = some []) →
      ResilientUnitOfWork.isRetryableError cfg e = false) := by
  constructor
  · obtain ⟨name, msg⟩ := e
    cases cfg with
    | none => simp [ResilientUnitOfWork.isRetryableError, retryableSpec]
    | some l =>
        cases msg <;>
          simp [ResilientUnitOfWork.isRetryableError, retryableSpec,
            List.any_eq_true, beq_iff_eq]
  · rintro (h | h) <;> subst h <;>
      simp [ResilientUnitOfWork.isRetryableError]

/-- Witness for C4 with an absent retryable set. -/
theorem isRetryableError_characterisation_witness :
    ResilientUnitOfWork.isRetryableError none tteErr = false :=
  (isRetryableError_characterisation none tteErr).2 (Or.inl rfl)

/-- C7: `UnitOfWork.abort` never propagates an error (any
`abortTransaction` failure is swallowed), and when the unit of work throws
and the abort also fails, `executeTransaction` still re-raises the unit of
work's error. -/
theorem abort_never_masks (st : UoWState) (o : Oracle) :
    (UnitOfWork.abort st o).res = .ok () ∧
    (∀ e f, st.session = none → o.uow = .error e → o.abortFails = some f →
      (UnitOfWork.executeTransaction st o).res = .error e) := by
  constructor
  · rcases h : st.session with _ | s
    · simp [UnitOfWork.abort, h]
    · cases htx : s.inTx <;> cases habort : o.abortFails <;>
        simp [UnitOfWork.abort, h, htx, habort]
  · intro e f hs hu _
    rw [attempt_uow_fail st o e hs hu]

/-- Witness for C7: concrete run where the unit of work fails and the abort
itself also fails. -/
theorem abort_never_masks_witness :
    (UnitOfWork.abort ⟨none, 0⟩ ⟨.error fatalErr, none, some tteErr⟩).res = .ok () ∧
    (UnitOfWork.executeTransaction ⟨none, 0⟩
        ⟨.error fatalErr, none, some tteErr⟩).res = .error fatalErr :=
  ⟨(abort_never_masks ⟨none, 0⟩ ⟨.error fatalErr, none, some tteErr⟩).1,
   (abort_never_masks ⟨none, 0⟩ ⟨.error fatalErr, none, some tteErr⟩).2
     fatalErr tteErr rfl rfl rfl⟩

/-- C10: `executeTransaction` on a manager with a pre-existing active
session fails with the active-session error and never invokes the unit of
work, but the catch/finally clauses abort the pre-existing session's active
transaction, end that session, and clear the slot before re-raising. -/
theorem executeTransaction_preexisting_session (st : UoWState) (s : Session)
    (o : Oracle) (h : st.session = some s) :
    (UnitOfWork.executeTransaction st o =
      ⟨.error alreadyActiveError, ⟨none, st.nextId⟩,
        (if s.inTx then [Event.abortTransaction s.id] else []) ++
          [Event.endSession s.id]⟩) ∧
    ∀ i, Event.uowCall i ∉ (UnitOfWork.executeTransaction st o).trace := by
  have hmain : UnitOfWork.executeTransaction st o =
      ⟨.error alreadyActiveError, ⟨none, st.nextId⟩,
        (if s.inTx then [Event.abortTransaction s.id] else []) ++
          [Event.endSession s.id]⟩ := by
    cases htx : s.inTx <;> cases habort : o.abortFails <;>
      simp [UnitOfWork.executeTransaction, UnitOfWork.attemptBody,
        UnitOfWork.begin, UnitOfWork.abort, UnitOfWork.dispose, h, htx, habort]
  refine ⟨hmain, ?_⟩
  intro i
  rw [hmain]
  cases htx : s.inTx <;> simp [htx]

/-- Witness for C10 at a concrete state with an in-transaction session. -/
theorem executeTransaction_preexisting_session_witness :
    UnitOfWork.executeTransaction ⟨some ⟨9, true⟩, 3⟩ ⟨.ok 1, none, none⟩ =
      ⟨.error alreadyActiveError, ⟨none, 3⟩,
        [Event.abortTransaction 9, Event.endSession 9]⟩ :=
  (executeTransaction_preexisting_session ⟨some ⟨9, true⟩, 3⟩ ⟨9, true⟩
    ⟨.ok 1, none, none⟩ rfl).1

/-- Behaviour of the retry loop from any iteration when every attempt's
unit of work throws a retryable error: all allowed iterations run and the
loop rethrows the error of the final one. -/
lemma retryFrom_all_uow_fail (opts : RetryOptions) (os : Nat → Oracle)
    (e : Nat → JsError)
    (hu : ∀ i, (os i).uow = .error (e i))
    (hr : ∀ i, ResilientUnitOfWork.isRetryableError opts.retryableErrors (e i) = true) :
    ∀ remaining attempt st, st.session = none →
      (ResilientUnitOfWork.retryFrom opts os attempt remaining st).res =
          .error (e (attempt + remaining)) ∧
      (ResilientUnitOfWork.retryFrom opts os attempt remaining st).attempts =
          remaining + 1 ∧
      (ResilientUnitOfWork.retryFrom opts os attempt remaining st).state.session =
          none := by
  intro remaining
  induction remaining with
  | zero =>
      intro attempt st hs
      rw [ResilientUnitOfWork.retryFrom,
        attempt_uow_fail st (os attempt) (e attempt) hs (hu attempt)]
      simp
  | succ rem ih =>
      intro attempt st hs
      rw [ResilientUnitOfWork.retryFrom,
        attempt_uow_fail st (os attempt) (e attempt) hs (hu attempt)]
      have h1 := ih (attempt + 1) ⟨none, st.nextId + 1⟩ rfl
      have hadd : attempt + 1 + rem = attempt + (rem + 1) := by omega
      rw [hadd] at h1
      simp only [hr attempt, if_true]
      simpa using h1

/-- C2: with `maxRetries = 3` and a retryable failure on every attempt, the
resilient executor performs exactly 4 attempts of the full wrapped
lifecycle and then re-raises the last observed error itself. -/
theorem resilient_retry_bound (opts : RetryOptions) (os : Nat → Oracle)
    (e : Nat → JsError) (st : UoWState)
    (hmax : opts.maxRetries = 3) (hs : st.session = none)
    (hu : ∀ i, (os i).uow = .error (e i))
    (hr : ∀ i, ResilientUnitOfWork.isRetryableError opts.retryableErrors (e i) = true) :
    (ResilientUnitOfWork.executeTransaction opts os st).res = .error (e 3) ∧
    (ResilientUnitOfWork.executeTransaction opts os st).attempts = 4 := by
  have h := retryFrom_all_uow_fail opts os e hu hr 3 0 st hs
  rw [ResilientUnitOfWork.executeTransaction, hmax]
  exact ⟨h.1, h.2.1⟩

/-- Witness for C2: default options (maxRetries 3), unit of work always
throwing `TransientTransactionError`. -/
theorem resilient_retry_bound_witness :
    (ResilientUnitOfWork.executeTransaction DEFAULT_RETRY_OPTIONS
        (fun _ => ⟨.error tteErr, none, none⟩) ⟨none, 0⟩).res = .error tteErr ∧
    (ResilientUnitOfWork.executeTransaction DEFAULT_RETRY_OPTIONS
        (fun _ => ⟨.error tteErr, none, none⟩) ⟨none, 0⟩).attempts = 4 :=
  by
  have hret : ResilientUnitOfWork.isRetryableError
      DEFAULT_RETRY_OPTIONS.retryableErrors tteErr = true := by decide
  exact resilient_retry_bound DEFAULT_RETRY_OPTIONS
    (fun _ => ⟨.error tteErr, none, none⟩) (fun _ => tteErr) ⟨none, 0⟩ rfl rfl
    (fun _ => rfl) (fun _ => hret)

/-- C6: when the first attempt fails with a non-retryable error, the
resilient executor performs exactly one attempt, sleeps no backoff delay,
and re-raises that error immediately, for every `maxRetries`. -/
theorem resilient_non_retryable_short_circuit (opts : RetryOptions)
    (os : Nat → Oracle) (st : UoWState) (e : JsError)
    (h : (UnitOfWork.executeTransaction st (os 0)).res = .error e)
    (hr : ResilientUnitOfWork.isRetryableError opts.retryableErrors e = false) :
    (ResilientUnitOfWork.executeTransaction opts os st).res = .error e ∧
    (ResilientUnitOfWork.executeTransaction opts os st).attempts = 1 ∧
    (ResilientUnitOfWork.executeTransaction opts os st).delays = [] := by
  rcases hx : UnitOfWork.executeTransaction st (os 0) with ⟨res, st2, tr⟩
  rw [hx] at h
  simp only at h
  subst h
  rw [ResilientUnitOfWork.executeTransaction]
  cases hm : opts.maxRetries with
  | zero =>
      rw [ResilientUnitOfWork.retryFrom, hx]
      simp
  | succ m =>
      rw [ResilientUnitOfWork.retryFrom, hx]
      simp [hr]

/-- Witness for C6: default options, first attempt failing with a
non-retryable error. -/
theorem resilient_non_retryable_short_circuit_witness :
    (ResilientUnitOfWork.executeTransaction DEFAULT_RETRY_OPTIONS
        (fun _ => ⟨.error fatalErr, none, none⟩) ⟨none, 0⟩).res = .error fatalErr ∧
    (ResilientUnitOfWork.executeTransaction DEFAULT_RETRY_OPTIONS
        (fun _ => ⟨.error fatalErr, none, none⟩) ⟨none, 0⟩).attempts = 1 ∧
    (ResilientUnitOfWork.executeTransaction DEFAULT_RETRY_OPTIONS
        (fun _ => ⟨.error fatalErr, none, none⟩) ⟨none, 0⟩).delays = [] :=
  resilient_non_retryable_short_circuit DEFAULT_RETRY_OPTIONS
    (fun _ => ⟨.error fatalErr, none, none⟩) ⟨none, 0⟩ fatalErr rfl (by decide)

end MUow
